import Mathlib

/-!
Verification of the sales-prediction backend (FastAPI + Prophet + LightGBM).

Shallow embedding of `src/backend/main.py` (the `generate_live_forecast`
endpoint and the startup `lifespan`) and `src/backend/blob_storage.py`
(the storage backends with the manifest contract check).

Conventions of the embedding:
* Dates are natural numbers counting days from an epoch chosen so that the
  weekly anchor used by `pd.date_range(freq=W)` (Sunday) falls on the
  multiples of 7.
* Float quantities are rationals; the opaque float library routines
  (`np.log1p`, `np.expm1`, `np.sin`, `np.cos`, `np.pi`, Python `round`)
  are fields of a `FloatOps` parameter, and the pandas calendar accessors
  (`dt.month`, `isocalendar().week`, `dt.year`) are fields of a
  `Calendar` parameter: theorems quantify over them.
* The Prophet model is opaque: fitting a configuration on a `(ds, y)`
  series and predicting a date is one oracle
  `prophet : ProphetConfig → List (Nat × ℚ) → Nat → ℚ`; likewise the
  LightGBM booster is an oracle from the selected feature row to a
  prediction.
* A pandas DataFrame row is an association list from column name to value,
  built by the same sequence of column assignments as the source.
-/

/-- Opaque float routines used by the pipeline (numpy / Python builtins). -/
structure FloatOps where
  log1p : ℚ → ℚ
  expm1 : ℚ → ℚ
  sin : ℚ → ℚ
  cos : ℚ → ℚ
  pi : ℚ
  round2 : ℚ → ℚ

/-- Opaque pandas calendar accessors: `dt.month`, `isocalendar().week`, `dt.year`. -/
structure Calendar where
  monthOf : Nat → Nat
  weekOf : Nat → Nat
  yearOf : Nat → Nat

/-- A row of the `sales_history` table: `(ds, y)` (main.py line 234). -/
structure SalesRec where
  ds : Nat
  y : ℚ

/-- A row of `df_history` after line 244 added the `y_log` column. -/
structure PrepRow where
  ds : Nat
  y : ℚ
  y_log : ℚ

/-- main.py lines 242-244: build `df_history` and add `y_log = np.log1p(y)`. -/
def prepHistory (ops : FloatOps) (hist : List SalesRec) : List PrepRow :=
  hist.map fun r => ⟨r.ds, r.y, ops.log1p r.y⟩

/-- The `(ds, y)` series a Prophet `fit(df_history)` call consumes: Prophet
reads exactly the `ds` and `y` columns of the frame it is given
(main.py lines 257 and 261). -/
def trendFitInput (dfHistory : List PrepRow) : List (Nat × ℚ) :=
  dfHistory.map fun r => (r.ds, r.y)

/-- Prophet constructor arguments (main.py lines 256 and 260). -/
structure ProphetConfig where
  yearly_seasonality : Bool
  weekly_seasonality : Bool
  daily_seasonality : Bool
deriving DecidableEq

/-- main.py line 252: `seasonality = True if len(df_history) > 52 else False`,
used as `yearly_seasonality` in both Prophet constructions. -/
def prophetConfigOf (dfHistory : List PrepRow) : ProphetConfig :=
  ⟨decide (dfHistory.length > 52), false, false⟩

/-- How `pd.date_range(start, periods, freq=W)` rolls the start forward to the
next weekly anchor (epoch chosen so anchors are the multiples of 7). -/
def rollForwardToAnchor (d : Nat) : Nat :=
  if d % 7 = 0 then d else d + (7 - d % 7)

/-- The future part of the Prophet method `make_future_dataframe(periods, freq=W)`:
`dates = pd.date_range(start=last_date, periods=periods+1, freq=W)`,
then `dates = dates[dates > last_date]`, then `dates = dates[:periods]`. -/
def newFutureDates (lastDate periods : Nat) : List Nat :=
  let anchor := rollForwardToAnchor lastDate
  let raw := (List.range (periods + 1)).map fun k => anchor + 7 * k
  (raw.filter fun d => lastDate < d).take periods

/-- The pandas aggregate `df[ds].max()` on a list of dates (0 on the empty frame). -/
def listMax (l : List Nat) : Nat :=
  l.foldl max 0

/-- The Prophet method `make_future_dataframe(periods, freq=W)` with
`include_history=True` (the default, main.py line 264): the history dates
followed by the new future dates. -/
def make_future_dataframe (histDates : List Nat) (periods : Nat) : List Nat :=
  histDates ++ newFutureDates (listMax histDates) periods

/-- A pandas cell value: numeric or string. -/
inductive Val where
  | num : ℚ → Val
  | str : String → Val
deriving DecidableEq

/-- The column labels of `df_features` in main.py (a fixed, finite set of
string labels, modelled as an enumeration). -/
inductive ColName where
  | ds
  | prophet_pred_log
  | Product_Code
  | month
  | week
  | year
  | month_sin
  | month_cos
  | week_sin
  | week_cos
  | Product_Code_Encoded
  | predicted_sales
deriving DecidableEq

/-- A DataFrame row: association list from column name to value, in column
insertion order. -/
abbrev Frame := List (ColName × Val)

/-- Column assignment `df[name] = v`: overwrite if the column exists,
otherwise append it. -/
def setCol (row : Frame) (name : ColName) (v : Val) : Frame :=
  if row.any (fun p => p.1 = name) then
    row.map (fun p => if p.1 = name then (p.1, v) else p)
  else
    row ++ [(name, v)]

/-- Column read `df[name]`. -/
def getCol (row : Frame) (name : ColName) : Option Val :=
  (row.find? (fun p => p.1 = name)).map (·.2)

/-- Numeric column read; rows built by this pipeline always carry the
columns that are read, so the fallback value is unreachable. -/
def rowNum (row : Frame) (name : ColName) : ℚ :=
  match getCol row name with
  | some (.num q) => q
  | _ => 0

/-- The product encoder loaded at startup: a scikit-learn LabelEncoder
(`classes_` plus `transform`). -/
structure Encoder where
  classes : List String
  transform : String → Int

/-- main.py lines 280-283: encoder lookup with the unseen-product sentinel
`-1`. -/
def encodeProduct (enc : Encoder) (productId : String) : Int :=
  if productId ∈ enc.classes then enc.transform productId else -1

/-- main.py lines 267-284: one row of `df_features`, built by the source
sequence of column assignments (rename `yhat` to `prophet_pred_log`, then
`Product_Code`, `month`, `week`, `year`, the four cyclical features, and
`Product_Code_Encoded`). -/
def buildFeatureRow (ops : FloatOps) (cal : Calendar) (productId : String)
    (encodedId : Int) (d : Nat) (yhat : ℚ) : Frame :=
  let row : Frame := [(.ds, .num (d : ℚ)), (.prophet_pred_log, .num yhat)]
  let row := setCol row .Product_Code (.str productId)
  let month : ℚ := (cal.monthOf d : ℚ)
  let week : ℚ := (cal.weekOf d : ℚ)
  let row := setCol row .month (.num month)
  let row := setCol row .week (.num week)
  let row := setCol row .year (.num (cal.yearOf d : ℚ))
  let row := setCol row .month_sin (.num (ops.sin (2 * ops.pi * month / 12)))
  let row := setCol row .month_cos (.num (ops.cos (2 * ops.pi * month / 12)))
  let row := setCol row .week_sin (.num (ops.sin (2 * ops.pi * week / 52)))
  let row := setCol row .week_cos (.num (ops.cos (2 * ops.pi * week / 52)))
  setCol row .Product_Code_Encoded (.num (encodedId : ℚ))

/-- main.py lines 287-288: the fixed feature column list handed to
`lgbm_model.predict`. -/
def featureColumns : List ColName :=
  [.prophet_pred_log, .Product_Code_Encoded,
   .month_sin, .month_cos, .week_sin, .week_cos, .year]

/-- Selection `df_features[features]` on one row: the selected cells in column order. -/
def selectFeatures (row : Frame) : List (Option Val) :=
  featureColumns.map (getCol row)

/-- A row of the `sales_forecast` table (main.py lines 308-312). -/
structure ForecastRow where
  product_code : String
  forecast_date : ℚ
  predicted_sales : ℚ

/-- One entry of the JSON response (main.py lines 316-319): the row date
and its predicted sales rounded to two decimals. -/
structure RespEntry where
  date : ℚ
  sales : ℚ

/-- The JSON body returned on success (main.py lines 325-329). -/
structure LiveResponse where
  status : String
  message : String
  forecast : List RespEntry

/-- A Python exception escaping the endpoint body: either an
`HTTPException(status, detail)` raised inside the `try` block, or an
attribute error from using an unloaded (None) global model. -/
inductive PyError where
  | http : Nat → String → PyError
  | attrError : String → PyError
deriving DecidableEq

/-- Python `str(e)` for the exceptions above (`str` of a Starlette `HTTPException`
is `"{status}: {detail}"` with the braces filled in). -/
def pyStr : PyError → String
  | .http c d => toString c ++ ": " ++ d
  | .attrError m => m

/-- The error response produced by `raise HTTPException(status_code, detail)`
at the endpoint boundary. -/
structure HttpErrorResp where
  status_code : Nat
  detail : String
deriving DecidableEq

/-- main.py lines 246-261: download any stored per-product Prophet artifact
and, in either branch of `if m:`, construct a fresh Prophet with the
data-sufficiency seasonality toggle and fit it on `df_history`; the result
of the fit-then-predict pair is the `yhat` column of the trend forecast,
as a function of the date. -/
def yhatOf (ops : FloatOps)
    (prophet : ProphetConfig → List (Nat × ℚ) → Nat → ℚ)
    (storedModel : Option Unit) (hist : List SalesRec) : Nat → ℚ :=
  let dfHistory := prepHistory ops hist
  let cfg := prophetConfigOf dfHistory
  if storedModel.isSome then prophet cfg (trendFitInput dfHistory)
  else prophet cfg (trendFitInput dfHistory)

/-- main.py lines 264-300: the rows of `df_final` — trend forecast over the
104-period future frame, feature engineering, LightGBM prediction with
`np.expm1(...).clip(min=0)` appended as `predicted_sales`, filtered to
dates strictly after `df_history[ds].max()`. -/
def dfFinalOf (ops : FloatOps) (cal : Calendar)
    (prophet : ProphetConfig → List (Nat × ℚ) → Nat → ℚ)
    (lgbmPredict : List (Option Val) → ℚ) (enc : Encoder)
    (storedModel : Option Unit) (productId : String) (hist : List SalesRec) :
    List Frame :=
  let dfHistory := prepHistory ops hist
  let futureDs := make_future_dataframe (dfHistory.map (·.ds)) 104
  let encodedId := encodeProduct enc productId
  let dfFeatures := futureDs.map fun d =>
    buildFeatureRow ops cal productId encodedId d
      (yhatOf ops prophet storedModel hist d)
  let withPreds := dfFeatures.map fun row =>
    setCol row .predicted_sales
      (.num (max (ops.expm1 (lgbmPredict (selectFeatures row))) 0))
  let lastHistoryDate := listMax (dfHistory.map (·.ds))
  withPreds.filter fun row => decide ((lastHistoryDate : ℚ) < rowNum row .ds)

/-- main.py lines 221-329, body of the `try` block of
`generate_live_forecast`: fetch history, 404 on empty, build `df_history`,
run the fit-predict-engineer-correct-filter pipeline, and assemble the
persisted records and the JSON payload from `df_final`. A `None` global
model (never loaded at startup) raises an attribute error at its first
use, caught by the except clause of the endpoint. -/
def generate_live_forecast_body (ops : FloatOps) (cal : Calendar)
    (prophet : ProphetConfig → List (Nat × ℚ) → Nat → ℚ)
    (lgbOpt : Option (List (Option Val) → ℚ)) (encOpt : Option Encoder)
    (storedModel : Option Unit) (productId : String) (hist : List SalesRec) :
    Except PyError (LiveResponse × List ForecastRow) :=
  if hist.isEmpty then
    .error (.http 404 "No sales history found. Add data to sales_history first.")
  else
    match encOpt with
    | none => .error (.attrError "NoneType object has no attribute classes_")
    | some enc =>
      match lgbOpt with
      | none => .error (.attrError "NoneType object has no attribute predict")
      | some lgbmPredict =>
        let dfFinal := dfFinalOf ops cal prophet lgbmPredict enc storedModel
          productId hist
        let forecastRecords : List ForecastRow := dfFinal.map fun row =>
          ⟨productId, rowNum row .ds, rowNum row .predicted_sales⟩
        let responseData : List RespEntry := dfFinal.map fun row =>
          ⟨rowNum row .ds, ops.round2 (rowNum row .predicted_sales)⟩
        .ok (⟨"success",
              "Forecast updated for " ++ productId ++ ". Model upload queued in background.",
              responseData⟩, forecastRecords)

/-- main.py lines 331-332: the `except Exception` clause wrapping the whole
body re-raises every escaping exception — the 404 `HTTPException` included,
since `HTTPException` is an `Exception` subclass — as
`HTTPException(status_code=500, detail=str(e))`. -/
def generate_live_forecast (ops : FloatOps) (cal : Calendar)
    (prophet : ProphetConfig → List (Nat × ℚ) → Nat → ℚ)
    (lgbOpt : Option (List (Option Val) → ℚ)) (encOpt : Option Encoder)
    (storedModel : Option Unit) (productId : String) (hist : List SalesRec) :
    Except HttpErrorResp (LiveResponse × List ForecastRow) :=
  match generate_live_forecast_body ops cal prophet lgbOpt encOpt storedModel
      productId hist with
  | .ok r => .ok r
  | .error e => .error ⟨500, pyStr e⟩

/-- main.py lines 321-322: `delete_many(product_code = productId)` followed by
`create_many(rows)` on the `sales_forecast` table. -/
def replaceForecast (db : List ForecastRow) (productId : String)
    (rows : List ForecastRow) : List ForecastRow :=
  (db.filter fun r => decide (r.product_code ≠ productId)) ++ rows

/-- The persisted forecast set of one product. -/
def forecastFor (productId : String) (db : List ForecastRow) : List ForecastRow :=
  db.filter fun r => decide (r.product_code = productId)

/-- One full request against the persisted forecast table: on success the
table is updated by delete-then-insert, on failure it is untouched. -/
def runLiveForecast (db : List ForecastRow) (ops : FloatOps) (cal : Calendar)
    (prophet : ProphetConfig → List (Nat × ℚ) → Nat → ℚ)
    (lgbOpt : Option (List (Option Val) → ℚ)) (encOpt : Option Encoder)
    (storedModel : Option Unit) (productId : String) (hist : List SalesRec) :
    List ForecastRow × Except HttpErrorResp LiveResponse :=
  match generate_live_forecast_body ops cal prophet lgbOpt encOpt storedModel
      productId hist with
  | .ok (resp, rows) => (replaceForecast db productId rows, .ok resp)
  | .error e => (db, .error ⟨500, pyStr e⟩)

/-- blob_storage.py: the manifest JSON (`active_global_model` plus
`global_model_config` with `expected_features` and `encoder_file`). -/
structure Manifest where
  active_global_model : String
  expected_features : Nat
  encoder_file : String

/-- The on-disk situation for the global LightGBM artifact: the model file
found (by its reported `num_feature()`) at the primary namespaced path and
at the flat fallback path, if present. -/
structure LgbmDisk where
  primary : Option Nat
  flat : Option Nat

/-- The exceptions `LocalStorage.load_global_lgbm` can raise:
`FileNotFoundError`, or the `ValueError` of the contract check carrying the
expected and the actual feature counts (blob_storage.py lines 61-65). -/
inductive LoadErr where
  | fileNotFound : String → LoadErr
  | contractViolation : Nat → Nat → LoadErr
deriving DecidableEq

/-- blob_storage.py lines 43-66, `LocalStorage.load_global_lgbm`: resolve the
model file at the namespaced path, falling back to the flat path; raise
`FileNotFoundError` if neither exists; load the model and compare its
`num_feature()` against the manifest field `expected_features`, raising a
contract-violation `ValueError` carrying both numbers on mismatch. -/
def LocalStorage.load_global_lgbm (manifest : Manifest) (disk : LgbmDisk) :
    Except LoadErr Nat :=
  match (match disk.primary with | some m => some m | none => disk.flat) with
  | none => .error (.fileNotFound manifest.active_global_model)
  | some numFeature =>
    if numFeature ≠ manifest.expected_features then
      .error (.contractViolation manifest.expected_features numFeature)
    else
      .ok numFeature

/-- The global model slots of the module-level `models` dict of main.py after
startup. -/
structure AppModels where
  lgb : Option Nat
  encoder : Option Unit
deriving DecidableEq

/-- Outcome of process startup: aborted before serving, or serving with the
global model slots as loaded. -/
inductive StartupResult where
  | aborted : StartupResult
  | started : AppModels → StartupResult
deriving DecidableEq

/-- main.py lines 132-162, `lifespan`: storage-initialization failure is
re-raised and aborts startup; the global-model loading step is wrapped in
its own `try` whose `except` only prints (`Live endpoints will fail until
models are fixed`) and falls through to `yield` — the process starts
serving whether or not the loads succeeded. If the model load raises, the
encoder assignment on the following line never runs. -/
def lifespan (storageInitOk : Bool) (lgbLoad : Except LoadErr Nat)
    (encoderLoad : Option Unit) : StartupResult :=
  if storageInitOk then
    match lgbLoad with
    | .error _ => .started ⟨none, none⟩
    | .ok n => .started ⟨some n, encoderLoad⟩
  else
    .aborted

/-- Outcome of one Azure blob read: the blob bytes, or one of the failure
modes the spec distinguishes. -/
inductive BlobOutcome where
  | ok : String → BlobOutcome
  | notFound : BlobOutcome
  | permissionDenied : BlobOutcome
  | networkError : BlobOutcome
  | corrupted : BlobOutcome
deriving DecidableEq

/-- blob_storage.py lines 147-155, `AzureBlobStorage.load_prophet_model`:
the whole read-and-parse is wrapped in `try ... except Exception: return
None`, so every failure mode — not only a missing blob — is reported as
`None` (absent). -/
def AzureBlobStorage.load_prophet_model {α : Type} (parse : String → α)
    (res : BlobOutcome) : Option α :=
  match res with
  | .ok s => some (parse s)
  | _ => none

/-- main.py lines 78-87, `AzureBlobStorage.download_pickle`: every exception
during the blob read or unpickling is caught, logged and turned into
`None`. -/
def AzureBlobStorage.download_pickle {α : Type} (unpickle : String → α)
    (res : BlobOutcome) : Option α :=
  match res with
  | .ok s => some (unpickle s)
  | _ => none

/-! Helper lemmas about the embedding. -/

theorem setCol_fresh (l : Frame) (n : ColName) (v : Val)
    (h : l.any (fun p => decide (p.1 = n)) = false) :
    setCol l n v = l ++ [(n, v)] := by
  simp [setCol, h]

/-- Normal form of one engineered feature row: the column assignments of
main.py lines 267-284 produce this association list. -/
theorem buildFeatureRow_eq (ops : FloatOps) (cal : Calendar) (pid : String)
    (enc : Int) (d : Nat) (yh : ℚ) :
    buildFeatureRow ops cal pid enc d yh =
      [(.ds, .num (d : ℚ)), (.prophet_pred_log, .num yh),
       (.Product_Code, .str pid),
       (.month, .num (cal.monthOf d : ℚ)), (.week, .num (cal.weekOf d : ℚ)),
       (.year, .num (cal.yearOf d : ℚ)),
       (.month_sin, .num (ops.sin (2 * ops.pi * (cal.monthOf d : ℚ) / 12))),
       (.month_cos, .num (ops.cos (2 * ops.pi * (cal.monthOf d : ℚ) / 12))),
       (.week_sin, .num (ops.sin (2 * ops.pi * (cal.weekOf d : ℚ) / 52))),
       (.week_cos, .num (ops.cos (2 * ops.pi * (cal.weekOf d : ℚ) / 52))),
       (.Product_Code_Encoded, .num (enc : ℚ))] := by
  simp [buildFeatureRow, setCol_fresh]

theorem withPredRow_eq (ops : FloatOps) (cal : Calendar) (pid : String)
    (enc : Int) (d : Nat) (yh v : ℚ) :
    setCol (buildFeatureRow ops cal pid enc d yh) .predicted_sales (.num v) =
      buildFeatureRow ops cal pid enc d yh ++ [(.predicted_sales, .num v)] := by
  rw [buildFeatureRow_eq]
  rw [setCol_fresh _ _ _ (by simp)]

theorem rowNum_withPred_ds (ops : FloatOps) (cal : Calendar) (pid : String)
    (enc : Int) (d : Nat) (yh v : ℚ) :
    rowNum (setCol (buildFeatureRow ops cal pid enc d yh) .predicted_sales
      (.num v)) .ds = (d : ℚ) := by
  rw [withPredRow_eq, buildFeatureRow_eq]
  rfl

theorem rowNum_withPred_sales (ops : FloatOps) (cal : Calendar) (pid : String)
    (enc : Int) (d : Nat) (yh v : ℚ) :
    rowNum (setCol (buildFeatureRow ops cal pid enc d yh) .predicted_sales
      (.num v)) .predicted_sales = v := by
  rw [withPredRow_eq, buildFeatureRow_eq]
  rfl

theorem rollForwardToAnchor_ge (d : Nat) : d ≤ rollForwardToAnchor d := by
  unfold rollForwardToAnchor
  split <;> omega

theorem newFutureDates_mem_gt (lastDate periods : Nat) :
    ∀ d ∈ newFutureDates lastDate periods, lastDate < d := by
  intro d hd
  unfold newFutureDates at hd
  have h1 := List.mem_of_mem_take hd
  have h2 := List.of_mem_filter h1
  simpa using h2

theorem newFutureDates_length (lastDate periods : Nat) :
    (newFutureDates lastDate periods).length = periods := by
  unfold newFutureDates
  dsimp only
  by_cases h : lastDate < rollForwardToAnchor lastDate
  · have hall : ((List.range (periods + 1)).map
        (fun k => rollForwardToAnchor lastDate + 7 * k)).filter
          (fun d => decide (lastDate < d)) =
        (List.range (periods + 1)).map
          (fun k => rollForwardToAnchor lastDate + 7 * k) := by
      apply List.filter_eq_self.mpr
      intro x hx
      simp only [List.mem_map, List.mem_range] at hx
      obtain ⟨k, _, rfl⟩ := hx
      simp only [decide_eq_true_eq]
      omega
    rw [hall, List.length_take, List.length_map, List.length_range]
    omega
  · have ha : rollForwardToAnchor lastDate = lastDate := by
      have := rollForwardToAnchor_ge lastDate
      omega
    rw [ha, List.range_succ_eq_map, List.map_cons]
    have htail : (((List.range periods).map Nat.succ).map
        (fun k => lastDate + 7 * k)).filter (fun d => decide (lastDate < d)) =
        ((List.range periods).map Nat.succ).map (fun k => lastDate + 7 * k) := by
      apply List.filter_eq_self.mpr
      intro x hx
      simp only [List.map_map, List.mem_map, List.mem_range] at hx
      obtain ⟨k, _, rfl⟩ := hx
      simp only [Function.comp_apply, decide_eq_true_eq]
      omega
    have hhead : (decide (lastDate < lastDate + 7 * 0)) = false := by
      simp
    rw [List.filter_cons, hhead]
    simp only [Bool.false_eq_true, if_false]
    rw [htail]
    have hlen : (((List.range periods).map Nat.succ).map
        (fun k => lastDate + 7 * k)).length = periods := by
      simp
    rw [List.take_of_length_le (le_of_eq hlen), hlen]

theorem le_foldl_max (a : Nat) (l : List Nat) : a ≤ l.foldl max a := by
  induction l generalizing a with
  | nil => simp
  | cons b l ih => exact le_trans (le_max_left a b) (ih (max a b))

theorem mem_le_foldl_max (l : List Nat) (a x : Nat) (hx : x ∈ l) :
    x ≤ l.foldl max a := by
  induction l generalizing a with
  | nil => cases hx
  | cons b l ih =>
    rcases List.mem_cons.mp hx with rfl | h
    · exact le_trans (le_max_right a x) (le_foldl_max _ _)
    · exact ih _ h

theorem le_listMax (l : List Nat) (x : Nat) (hx : x ∈ l) : x ≤ listMax l :=
  mem_le_foldl_max l 0 x hx

theorem dfFinalOf_eq (ops : FloatOps) (cal : Calendar)
    (prophet : ProphetConfig → List (Nat × ℚ) → Nat → ℚ)
    (lgbmPredict : List (Option Val) → ℚ) (enc : Encoder)
    (storedModel : Option Unit) (pid : String) (hist : List SalesRec) :
    dfFinalOf ops cal prophet lgbmPredict enc storedModel pid hist =
      (newFutureDates (listMax (hist.map (·.ds))) 104).map
        (fun d =>
          setCol (buildFeatureRow ops cal pid (encodeProduct enc pid) d
              (yhatOf ops prophet storedModel hist d)) .predicted_sales
            (.num (max (ops.expm1 (lgbmPredict (selectFeatures
              (buildFeatureRow ops cal pid (encodeProduct enc pid) d
                (yhatOf ops prophet storedModel hist d))))) 0))) := by
  unfold dfFinalOf
  dsimp only
  have hds : (prepHistory ops hist).map (fun r => r.ds) =
      hist.map (fun r => r.ds) := by
    simp [prepHistory, List.map_map]
  rw [hds, List.map_map, List.filter_map, make_future_dataframe]
  have hpq : ∀ d ∈ (List.map (fun r => r.ds) hist ++
      newFutureDates (listMax (List.map (fun r => r.ds) hist)) 104),
      ((fun row => decide ((listMax (List.map (fun r => r.ds) hist) : ℚ) <
          rowNum row ColName.ds)) ∘
        (fun row => setCol row ColName.predicted_sales
          (Val.num (ops.expm1 (lgbmPredict (selectFeatures row)) ⊔ 0))) ∘
          fun d => buildFeatureRow ops cal pid (encodeProduct enc pid) d
            (yhatOf ops prophet storedModel hist d)) d =
      decide (listMax (List.map (fun r => r.ds) hist) < d) := by
    intro d _
    simp only [Function.comp_apply, rowNum_withPred_ds]
    exact decide_eq_decide.mpr Nat.cast_lt
  rw [List.filter_congr hpq]
  rw [List.filter_append]
  have h1 : (List.map (fun r => r.ds) hist).filter
      (fun d => decide (listMax (List.map (fun r => r.ds) hist) < d)) = [] := by
    apply List.filter_eq_nil_iff.mpr
    intro a ha
    simp only [decide_eq_true_eq, not_lt]
    exact le_listMax _ a ha
  have h2 : (newFutureDates (listMax (List.map (fun r => r.ds) hist)) 104).filter
      (fun d => decide (listMax (List.map (fun r => r.ds) hist) < d)) =
      newFutureDates (listMax (List.map (fun r => r.ds) hist)) 104 :=
    List.filter_eq_self.mpr (fun a ha => by
      simpa using newFutureDates_mem_gt _ 104 a ha)
  rw [h1, h2, List.nil_append]
  apply List.map_congr_left
  intro d _
  simp only [Function.comp_apply]

theorem yhatOf_indep (ops : FloatOps)
    (prophet : ProphetConfig → List (Nat × ℚ) → Nat → ℚ)
    (s s2 : Option Unit) (hist : List SalesRec) :
    yhatOf ops prophet s hist = yhatOf ops prophet s2 hist := by
  unfold yhatOf
  dsimp only
  rw [ite_self, ite_self]

theorem dfFinalOf_indep (ops : FloatOps) (cal : Calendar)
    (prophet : ProphetConfig → List (Nat × ℚ) → Nat → ℚ)
    (lgbmPredict : List (Option Val) → ℚ) (enc : Encoder)
    (s s2 : Option Unit) (pid : String) (hist : List SalesRec) :
    dfFinalOf ops cal prophet lgbmPredict enc s pid hist =
      dfFinalOf ops cal prophet lgbmPredict enc s2 pid hist := by
  unfold dfFinalOf
  rw [yhatOf_indep ops prophet s s2 hist]

theorem body_ok_of_models (ops : FloatOps) (cal : Calendar)
    (prophet : ProphetConfig → List (Nat × ℚ) → Nat → ℚ)
    (lgbmPredict : List (Option Val) → ℚ) (enc : Encoder)
    (stored : Option Unit) (pid : String) (hist : List SalesRec)
    (hne : hist.isEmpty = false) :
    generate_live_forecast_body ops cal prophet (some lgbmPredict) (some enc)
        stored pid hist =
      .ok (⟨"success",
            "Forecast updated for " ++ pid ++ ". Model upload queued in background.",
            (dfFinalOf ops cal prophet lgbmPredict enc stored pid hist).map
              fun row => ⟨rowNum row .ds, ops.round2 (rowNum row .predicted_sales)⟩⟩,
           (dfFinalOf ops cal prophet lgbmPredict enc stored pid hist).map
             fun row => ⟨pid, rowNum row .ds, rowNum row .predicted_sales⟩) := by
  unfold generate_live_forecast_body
  rw [hne]
  simp only [Bool.false_eq_true, if_false]

theorem forecastFor_replaceForecast (db : List ForecastRow) (pid : String)
    (rows : List ForecastRow) (hall : ∀ r ∈ rows, r.product_code = pid) :
    forecastFor pid (replaceForecast db pid rows) = rows := by
  unfold forecastFor replaceForecast
  rw [List.filter_append]
  have h1 : (db.filter fun r => decide (r.product_code ≠ pid)).filter
      (fun r => decide (r.product_code = pid)) = [] := by
    apply List.filter_eq_nil_iff.mpr
    intro r hr
    have := List.of_mem_filter hr
    simp only [decide_eq_true_eq] at this ⊢
    exact this
  have h2 : rows.filter (fun r => decide (r.product_code = pid)) = rows := by
    apply List.filter_eq_self.mpr
    intro r hr
    simp only [decide_eq_true_eq]
    exact hall r hr
  rw [h1, h2, List.nil_append]

/-! Claim theorems. -/

/-- Claim C8: for every forecast request, the feature vector passed to the
correction model is assembled in exactly the fixed column order
`[prophet_pred_log, encoded_product_id, month_sin, month_cos, week_sin,
week_cos, year]`, with the cyclical features computed as sine and cosine
of `2*pi*month/12` and `2*pi*week/52` (here `sin`, `cos` and `pi` are the
numpy float routines and constant, abstracted in `FloatOps`). -/
theorem feature_vector_fixed_order (ops : FloatOps) (cal : Calendar)
    (pid : String) (encodedId : Int) (d : Nat) (yh : ℚ) :
    selectFeatures (buildFeatureRow ops cal pid encodedId d yh) =
      [some (.num yh), some (.num (encodedId : ℚ)),
       some (.num (ops.sin (2 * ops.pi * (cal.monthOf d : ℚ) / 12))),
       some (.num (ops.cos (2 * ops.pi * (cal.monthOf d : ℚ) / 12))),
       some (.num (ops.sin (2 * ops.pi * (cal.weekOf d : ℚ) / 52))),
       some (.num (ops.cos (2 * ops.pi * (cal.weekOf d : ℚ) / 52))),
       some (.num (cal.yearOf d : ℚ))] := by
  rw [buildFeatureRow_eq]
  rfl

/-- Claim C9: yearly seasonality is enabled in the trend model if and only if
the history contains strictly more than 52 observations; otherwise it is
disabled (main.py line 252 feeding lines 256 and 260, via the
`prophetConfigOf` used by `yhatOf`). -/
theorem yearly_seasonality_iff (ops : FloatOps) (hist : List SalesRec) :
    (prophetConfigOf (prepHistory ops hist)).yearly_seasonality = true ↔
      52 < hist.length := by
  simp [prophetConfigOf, prepHistory]

/-- Claim C10: the forecast returned and persisted by `live_forecast` is
identical whether or not a previously saved per-product trend-model
artifact exists: both branches of `if m:` construct and fit a fresh
Prophet, so the downloaded artifact never influences the output — for any
two artifact-presence situations the endpoint result and the updated
forecast table coincide. -/
theorem stored_artifact_never_influences_output (db : List ForecastRow)
    (ops : FloatOps) (cal : Calendar)
    (prophet : ProphetConfig → List (Nat × ℚ) → Nat → ℚ)
    (lgbOpt : Option (List (Option Val) → ℚ)) (encOpt : Option Encoder)
    (stored stored2 : Option Unit) (pid : String) (hist : List SalesRec) :
    generate_live_forecast ops cal prophet lgbOpt encOpt stored pid hist =
      generate_live_forecast ops cal prophet lgbOpt encOpt stored2 pid hist ∧
    runLiveForecast db ops cal prophet lgbOpt encOpt stored pid hist =
      runLiveForecast db ops cal prophet lgbOpt encOpt stored2 pid hist := by
  have hbody : generate_live_forecast_body ops cal prophet lgbOpt encOpt
      stored pid hist =
      generate_live_forecast_body ops cal prophet lgbOpt encOpt stored2
        pid hist := by
    unfold generate_live_forecast_body
    cases encOpt with
    | none => rfl
    | some enc =>
      cases lgbOpt with
      | none => rfl
      | some lgbmPredict =>
        dsimp only
        rw [dfFinalOf_indep ops cal prophet lgbmPredict enc stored stored2
          pid hist]
  constructor
  · unfold generate_live_forecast
    rw [hbody]
  · unfold runLiveForecast
    rw [hbody]

/-- Claim C6: for every product identifier absent from the encoder, the
feature pipeline assigns the fixed sentinel code `-1` instead of failing,
and the forecast computation still completes and returns a prediction. -/
theorem unseen_product_sentinel (ops : FloatOps) (cal : Calendar)
    (prophet : ProphetConfig → List (Nat × ℚ) → Nat → ℚ)
    (lgbmPredict : List (Option Val) → ℚ) (enc : Encoder)
    (stored : Option Unit) (pid : String) (hist : List SalesRec)
    (hunseen : pid ∉ enc.classes) (hne : hist ≠ []) :
    encodeProduct enc pid = -1 ∧
    ∃ resp rows,
      generate_live_forecast ops cal prophet (some lgbmPredict) (some enc)
        stored pid hist = .ok (resp, rows) := by
  have hempty : hist.isEmpty = false := by
    simpa [List.isEmpty_iff] using hne
  constructor
  · simp [encodeProduct, hunseen]
  · unfold generate_live_forecast
    rw [body_ok_of_models ops cal prophet lgbmPredict enc stored pid hist hempty]
    exact ⟨_, _, rfl⟩

/-- Witness for C6 at a concrete input: product P2 unknown to an encoder
that only knows P1, with a one-point history. -/
theorem unseen_product_sentinel_witness :
    encodeProduct ⟨["P1"], fun _ => 0⟩ "P2" = -1 ∧
    ∃ resp rows,
      generate_live_forecast ⟨id, id, id, id, 0, id⟩
        ⟨fun _ => 1, fun _ => 1, fun _ => 1⟩ (fun _ _ _ => 0)
        (some (fun _ => 0)) (some ⟨["P1"], fun _ => 0⟩) none "P2"
        [⟨0, 5⟩] = .ok (resp, rows) :=
  unseen_product_sentinel _ _ _ _ _ _ _ _ (by simp) (by simp)

/-- Claim C1 (code bug): the 404 raised for an empty history at main.py line
240 sits inside the endpoint try block, whose `except Exception` clause
(lines 331-332) catches `HTTPException` — a subclass of `Exception` — and
re-raises it as a generic 500 whose detail is `str(e)`. For every
configuration (in particular for every trend-model oracle, showing no fit
is ever consulted), the caller of `live_forecast` on an empty history
receives status 500, not 404. -/
theorem empty_history_reported_as_500 (ops : FloatOps) (cal : Calendar)
    (prophet : ProphetConfig → List (Nat × ℚ) → Nat → ℚ)
    (lgbOpt : Option (List (Option Val) → ℚ)) (encOpt : Option Encoder)
    (stored : Option Unit) (pid : String) :
    generate_live_forecast ops cal prophet lgbOpt encOpt stored pid [] =
      .error ⟨500,
        "404: No sales history found. Add data to sales_history first."⟩ := by
  rfl

/-- Claim C3 (code bug): the history handed to the trend model for fitting
carries the raw quantities, not their `log1p` transform — main.py line 244
stores `np.log1p(y)` in a new column `y_log`, but `m.fit(df_history)`
consumes the untouched `y` column. First conjunct: for every float
library and history, the `(ds, y)` series the fit consumes equals the raw
history. Second conjunct: at a concrete input where `log1p` is observably
not the identity, the computed `y_log` column (6) differs from the target
the fit receives (5). -/
theorem trend_fit_consumes_raw_quantities :
    (∀ (ops : FloatOps) (hist : List SalesRec),
      trendFitInput (prepHistory ops hist) =
        hist.map fun r => (r.ds, r.y)) ∧
    trendFitInput (prepHistory ⟨fun q => q + 1, id, id, id, 0, id⟩
      [⟨0, 5⟩]) = [(0, 5)] ∧
    (prepHistory ⟨fun q => q + 1, id, id, id, 0, id⟩ [⟨0, 5⟩]).map
      (fun r => r.y_log) = [6] := by
  refine ⟨fun ops hist => ?_,
    by simp [trendFitInput, prepHistory],
    by simp [prepHistory]; norm_num⟩
  simp [trendFitInput, prepHistory, List.map_map]

/-- Claim C2, counterexample: a manifest expecting 8 features against a
loaded model reporting 7 makes `LocalStorage.load_global_lgbm` fail with
the contract-violation error carrying both numbers — but `lifespan`
catches the model-loading failure and the process starts serving (with
the global model slots left empty) instead of aborting startup. -/
theorem contract_violation_does_not_abort_startup :
    LocalStorage.load_global_lgbm
        ⟨"lgb_model.txt", 8, "product_encoder.pkl"⟩ ⟨some 7, none⟩ =
      .error (.contractViolation 8 7) ∧
    lifespan true (LocalStorage.load_global_lgbm
        ⟨"lgb_model.txt", 8, "product_encoder.pkl"⟩ ⟨some 7, none⟩) none =
      .started ⟨none, none⟩ := by
  exact ⟨rfl, rfl⟩

/-- Claim C2 as amended: for every manifest and resolved model file whose
reported feature count differs from `expected_features`, model resolution
fails with the contract-violation error carrying both numbers; however
the startup `lifespan` catches the failure and the system starts serving
with the global model slots unset, rather than aborting. -/
theorem contract_mismatch_fails_load_but_serving (manifest : Manifest)
    (disk : LgbmDisk) (nf : Nat) (hprimary : disk.primary = some nf)
    (hne : nf ≠ manifest.expected_features) :
    LocalStorage.load_global_lgbm manifest disk =
      .error (.contractViolation manifest.expected_features nf) ∧
    lifespan true (LocalStorage.load_global_lgbm manifest disk) none =
      .started ⟨none, none⟩ := by
  have hload : LocalStorage.load_global_lgbm manifest disk =
      .error (.contractViolation manifest.expected_features nf) := by
    unfold LocalStorage.load_global_lgbm
    rw [hprimary]
    simp [hne]
  exact ⟨hload, by rw [hload]; rfl⟩

/-- Witness for the amended C2 at the concrete mismatch 8 versus 7. -/
theorem contract_mismatch_fails_load_but_serving_witness :
    LocalStorage.load_global_lgbm
        ⟨"lgb_model.txt", 8, "product_encoder.pkl"⟩ ⟨some 7, none⟩ =
      .error (.contractViolation 8 7) ∧
    lifespan true (LocalStorage.load_global_lgbm
        ⟨"lgb_model.txt", 8, "product_encoder.pkl"⟩ ⟨some 7, none⟩) none =
      .started ⟨none, none⟩ :=
  contract_mismatch_fails_load_but_serving
    ⟨"lgb_model.txt", 8, "product_encoder.pkl"⟩ ⟨some 7, none⟩ 7 rfl
    (by decide)

/-- Claim C4, counterexample: a permission failure during an Azure
per-product model load is reported as `None` — the very value that
signals a missing artifact — rather than surfacing as a distinguishable
storage error. -/
theorem permission_failure_reported_as_absent :
    AzureBlobStorage.load_prophet_model (fun _ => ()) .permissionDenied =
      none ∧
    AzureBlobStorage.load_prophet_model (fun _ => ()) .permissionDenied =
      AzureBlobStorage.load_prophet_model (fun _ => ()) .notFound := by
  exact ⟨rfl, rfl⟩

/-- Claim C4 as amended: every failure mode of the Azure per-product model
load and of the Azure pickle download — permission, network, corruption,
exactly like not-found — is swallowed and reported as `None` (absent);
no distinguishable storage error reaches the caller. -/
theorem azure_loads_swallow_all_failures {α : Type}
    (parse unpickle : String → α) :
    AzureBlobStorage.load_prophet_model parse .notFound = none ∧
    AzureBlobStorage.load_prophet_model parse .permissionDenied = none ∧
    AzureBlobStorage.load_prophet_model parse .networkError = none ∧
    AzureBlobStorage.load_prophet_model parse .corrupted = none ∧
    AzureBlobStorage.download_pickle unpickle .notFound = none ∧
    AzureBlobStorage.download_pickle unpickle .permissionDenied = none ∧
    AzureBlobStorage.download_pickle unpickle .networkError = none ∧
    AzureBlobStorage.download_pickle unpickle .corrupted = none :=
  ⟨rfl, rfl, rfl, rfl, rfl, rfl, rfl, rfl⟩

/-- Claim C5: for every non-empty history of a product known to the encoder
(and any float rounding that preserves non-negativity, as Python `round`
does), `live_forecast` succeeds and both the persisted rows and the
returned entries number exactly 104, are dated strictly after the last
observed history date, and carry predicted quantities at least 0. -/
theorem live_forecast_104_future_nonneg (ops : FloatOps) (cal : Calendar)
    (prophet : ProphetConfig → List (Nat × ℚ) → Nat → ℚ)
    (lgbmPredict : List (Option Val) → ℚ) (enc : Encoder)
    (stored : Option Unit) (pid : String) (hist : List SalesRec)
    (hne : hist ≠ []) (hknown : pid ∈ enc.classes)
    (hround : ∀ q : ℚ, 0 ≤ q → 0 ≤ ops.round2 q) :
    ∃ resp rows,
      generate_live_forecast ops cal prophet (some lgbmPredict) (some enc)
        stored pid hist = .ok (resp, rows) ∧
      rows.length = 104 ∧
      (∀ r ∈ rows,
        ((listMax (hist.map fun h => h.ds) : ℚ) < r.forecast_date ∧
         0 ≤ r.predicted_sales)) ∧
      resp.forecast.length = 104 ∧
      (∀ x ∈ resp.forecast,
        ((listMax (hist.map fun h => h.ds) : ℚ) < x.date ∧ 0 ≤ x.sales)) := by
  have hempty : hist.isEmpty = false := by
    simpa [List.isEmpty_iff] using hne
  refine ⟨⟨"success",
      "Forecast updated for " ++ pid ++ ". Model upload queued in background.",
      (dfFinalOf ops cal prophet lgbmPredict enc stored pid hist).map
        fun row => ⟨rowNum row .ds, ops.round2 (rowNum row .predicted_sales)⟩⟩,
    (dfFinalOf ops cal prophet lgbmPredict enc stored pid hist).map
      fun row => ⟨pid, rowNum row .ds, rowNum row .predicted_sales⟩,
    ?_, ?_, ?_, ?_, ?_⟩
  · unfold generate_live_forecast
    rw [body_ok_of_models ops cal prophet lgbmPredict enc stored pid hist
      hempty]
  · rw [dfFinalOf_eq, List.length_map, List.length_map,
      newFutureDates_length]
  · intro r hr
    rw [dfFinalOf_eq, List.map_map] at hr
    obtain ⟨d, hd, rfl⟩ := List.mem_map.mp hr
    have hgt := newFutureDates_mem_gt _ _ d hd
    constructor
    · simp only [Function.comp_apply]
      show (listMax (hist.map fun h => h.ds) : ℚ) <
        rowNum (setCol (buildFeatureRow ops cal pid (encodeProduct enc pid)
          d (yhatOf ops prophet stored hist d)) .predicted_sales
          (.num (max (ops.expm1 (lgbmPredict (selectFeatures
            (buildFeatureRow ops cal pid (encodeProduct enc pid) d
              (yhatOf ops prophet stored hist d))))) 0))) .ds
      rw [rowNum_withPred_ds]
      exact_mod_cast hgt
    · simp only [Function.comp_apply]
      show 0 ≤ rowNum (setCol (buildFeatureRow ops cal pid
          (encodeProduct enc pid) d (yhatOf ops prophet stored hist d))
          .predicted_sales
          (.num (max (ops.expm1 (lgbmPredict (selectFeatures
            (buildFeatureRow ops cal pid (encodeProduct enc pid) d
              (yhatOf ops prophet stored hist d))))) 0))) .predicted_sales
      rw [rowNum_withPred_sales]
      exact le_max_right _ _
  · rw [dfFinalOf_eq, List.length_map, List.length_map,
      newFutureDates_length]
  · intro x hx
    rw [dfFinalOf_eq, List.map_map] at hx
    obtain ⟨d, hd, rfl⟩ := List.mem_map.mp hx
    have hgt := newFutureDates_mem_gt _ _ d hd
    constructor
    · simp only [Function.comp_apply]
      show (listMax (hist.map fun h => h.ds) : ℚ) <
        rowNum (setCol (buildFeatureRow ops cal pid (encodeProduct enc pid)
          d (yhatOf ops prophet stored hist d)) .predicted_sales
          (.num (max (ops.expm1 (lgbmPredict (selectFeatures
            (buildFeatureRow ops cal pid (encodeProduct enc pid) d
              (yhatOf ops prophet stored hist d))))) 0))) .ds
      rw [rowNum_withPred_ds]
      exact_mod_cast hgt
    · simp only [Function.comp_apply]
      refine hround _ ?_
      show 0 ≤ rowNum (setCol (buildFeatureRow ops cal pid
          (encodeProduct enc pid) d (yhatOf ops prophet stored hist d))
          .predicted_sales
          (.num (max (ops.expm1 (lgbmPredict (selectFeatures
            (buildFeatureRow ops cal pid (encodeProduct enc pid) d
              (yhatOf ops prophet stored hist d))))) 0))) .predicted_sales
      rw [rowNum_withPred_sales]
      exact le_max_right _ _

/-- Claim C7: each successful `live_forecast` run replaces the persisted
forecast set of the product wholesale — the table becomes
`replaceForecast` (delete-then-insert) of the fresh rows — so running it
twice with unchanged history (whatever per-product artifact the second
run finds) leaves exactly the fresh row set, of the same size as after
the first run, never an append or partial merge. -/
theorem live_forecast_full_replacement (db : List ForecastRow)
    (ops : FloatOps) (cal : Calendar)
    (prophet : ProphetConfig → List (Nat × ℚ) → Nat → ℚ)
    (lgbmPredict : List (Option Val) → ℚ) (enc : Encoder)
    (stored stored2 : Option Unit) (pid : String) (hist : List SalesRec)
    (hne : hist ≠ []) :
    ∃ rows : List ForecastRow,
      (runLiveForecast db ops cal prophet (some lgbmPredict) (some enc)
        stored pid hist).1 = replaceForecast db pid rows ∧
      forecastFor pid (runLiveForecast db ops cal prophet
        (some lgbmPredict) (some enc) stored pid hist).1 = rows ∧
      forecastFor pid (runLiveForecast
        (runLiveForecast db ops cal prophet (some lgbmPredict) (some enc)
          stored pid hist).1
        ops cal prophet (some lgbmPredict) (some enc) stored2 pid hist).1 =
        rows ∧
      (forecastFor pid (runLiveForecast
        (runLiveForecast db ops cal prophet (some lgbmPredict) (some enc)
          stored pid hist).1
        ops cal prophet (some lgbmPredict) (some enc) stored2 pid
          hist).1).length =
        (forecastFor pid (runLiveForecast db ops cal prophet
          (some lgbmPredict) (some enc) stored pid hist).1).length := by
  have hempty : hist.isEmpty = false := by
    simpa [List.isEmpty_iff] using hne
  have hrun1 : (runLiveForecast db ops cal prophet (some lgbmPredict)
      (some enc) stored pid hist).1 =
      replaceForecast db pid
        ((dfFinalOf ops cal prophet lgbmPredict enc stored pid hist).map
          fun row => ⟨pid, rowNum row .ds, rowNum row .predicted_sales⟩) := by
    unfold runLiveForecast
    rw [body_ok_of_models ops cal prophet lgbmPredict enc stored pid hist
      hempty]
  have hrun2 : ∀ db2 : List ForecastRow,
      (runLiveForecast db2 ops cal prophet (some lgbmPredict)
        (some enc) stored2 pid hist).1 =
      replaceForecast db2 pid
        ((dfFinalOf ops cal prophet lgbmPredict enc stored pid hist).map
          fun row => ⟨pid, rowNum row .ds, rowNum row .predicted_sales⟩) := by
    intro db2
    unfold runLiveForecast
    rw [body_ok_of_models ops cal prophet lgbmPredict enc stored2 pid hist
      hempty]
    rw [dfFinalOf_indep ops cal prophet lgbmPredict enc stored2 stored pid
      hist]
  have hallpid : ∀ r ∈ (dfFinalOf ops cal prophet lgbmPredict enc stored
      pid hist).map
      (fun row => (⟨pid, rowNum row .ds, rowNum row .predicted_sales⟩ :
        ForecastRow)), r.product_code = pid := by
    intro r hr
    obtain ⟨row, _, rfl⟩ := List.mem_map.mp hr
    rfl
  refine ⟨_, hrun1, ?_, ?_, ?_⟩
  · rw [hrun1]
    exact forecastFor_replaceForecast db pid _ hallpid
  · rw [hrun1, hrun2]
    exact forecastFor_replaceForecast _ pid _ hallpid
  · rw [hrun1, hrun2,
      forecastFor_replaceForecast _ pid _ hallpid,
      forecastFor_replaceForecast db pid _ hallpid]

/-- Witness for C5 at a concrete input: product P1 known to the encoder,
one-point history at date 3, identity float stubs. -/
theorem live_forecast_104_future_nonneg_witness :
    ∃ resp rows,
      generate_live_forecast ⟨id, id, id, id, 0, id⟩
        ⟨fun _ => 1, fun _ => 1, fun _ => 1⟩ (fun _ _ _ => 0)
        (some (fun _ => 0)) (some ⟨["P1"], fun _ => 0⟩) none "P1"
        [⟨3, 2⟩] = .ok (resp, rows) ∧
      rows.length = 104 ∧
      (∀ r ∈ rows,
        ((listMax (([⟨3, 2⟩] : List SalesRec).map fun h => h.ds) : ℚ) <
          r.forecast_date ∧ 0 ≤ r.predicted_sales)) ∧
      resp.forecast.length = 104 ∧
      (∀ x ∈ resp.forecast,
        ((listMax (([⟨3, 2⟩] : List SalesRec).map fun h => h.ds) : ℚ) <
          x.date ∧ 0 ≤ x.sales)) :=
  live_forecast_104_future_nonneg _ _ _ _ _ _ _ _ (by simp) (by simp)
    (fun _ h => h)

/-- Witness for C7 at a concrete input: a table holding one stale row for P1
and one row for another product, P1 rerun twice on a one-point history. -/
theorem live_forecast_full_replacement_witness :
    ∃ rows : List ForecastRow,
      (runLiveForecast [⟨"P1", 0, 9⟩, ⟨"P9", 1, 4⟩] ⟨id, id, id, id, 0, id⟩
        ⟨fun _ => 1, fun _ => 1, fun _ => 1⟩ (fun _ _ _ => 0)
        (some (fun _ => 0)) (some ⟨["P1"], fun _ => 0⟩) none "P1"
        [⟨3, 2⟩]).1 = replaceForecast [⟨"P1", 0, 9⟩, ⟨"P9", 1, 4⟩] "P1" rows ∧
      forecastFor "P1" (runLiveForecast [⟨"P1", 0, 9⟩, ⟨"P9", 1, 4⟩]
        ⟨id, id, id, id, 0, id⟩ ⟨fun _ => 1, fun _ => 1, fun _ => 1⟩
        (fun _ _ _ => 0) (some (fun _ => 0)) (some ⟨["P1"], fun _ => 0⟩)
        none "P1" [⟨3, 2⟩]).1 = rows ∧
      forecastFor "P1" (runLiveForecast
        (runLiveForecast [⟨"P1", 0, 9⟩, ⟨"P9", 1, 4⟩] ⟨id, id, id, id, 0, id⟩
          ⟨fun _ => 1, fun _ => 1, fun _ => 1⟩ (fun _ _ _ => 0)
          (some (fun _ => 0)) (some ⟨["P1"], fun _ => 0⟩) none "P1"
          [⟨3, 2⟩]).1
        ⟨id, id, id, id, 0, id⟩ ⟨fun _ => 1, fun _ => 1, fun _ => 1⟩
        (fun _ _ _ => 0) (some (fun _ => 0)) (some ⟨["P1"], fun _ => 0⟩)
        (some ()) "P1" [⟨3, 2⟩]).1 = rows ∧
      (forecastFor "P1" (runLiveForecast
        (runLiveForecast [⟨"P1", 0, 9⟩, ⟨"P9", 1, 4⟩] ⟨id, id, id, id, 0, id⟩
          ⟨fun _ => 1, fun _ => 1, fun _ => 1⟩ (fun _ _ _ => 0)
          (some (fun _ => 0)) (some ⟨["P1"], fun _ => 0⟩) none "P1"
          [⟨3, 2⟩]).1
        ⟨id, id, id, id, 0, id⟩ ⟨fun _ => 1, fun _ => 1, fun _ => 1⟩
        (fun _ _ _ => 0) (some (fun _ => 0)) (some ⟨["P1"], fun _ => 0⟩)
        (some ()) "P1" [⟨3, 2⟩]).1).length =
        (forecastFor "P1" (runLiveForecast [⟨"P1", 0, 9⟩, ⟨"P9", 1, 4⟩]
          ⟨id, id, id, id, 0, id⟩ ⟨fun _ => 1, fun _ => 1, fun _ => 1⟩
          (fun _ _ _ => 0) (some (fun _ => 0)) (some ⟨["P1"], fun _ => 0⟩)
          none "P1" [⟨3, 2⟩]).1).length :=
  live_forecast_full_replacement _ _ _ _ _ _ _ _ _ _ (by simp)
